import Mathlib

/-!
Verification of the kanvasgl 2D/3D vector and matrix library.

The definitions below are a shallow embedding of the library's source:
`Mat3` (lib/Mat3.js), `Mat4` (the 4x4 matrix class), `Vec2d`
(src/Vec2d.ts) and the context handling of the `Kanvas` facade
(src/Kanvas.ts).  JavaScript numbers are modelled as real numbers; the
mutable fields of an object are modelled as the fields of a structure,
with every mutating method returning the updated structure.  Array
aliasing (which matters for copy independence and frame properties of
`multiply`) is modelled separately by a small store of arrays addressed
by natural numbers.
-/

noncomputable section

/-! ## Mat3 (lib/Mat3.js), value level

`Mat3` holds a flat array of nine numbers `_data`; field `dI` models
slot `_data[I]`.  Each factory lists its nine entries in the order of
the corresponding array literal in the source.
-/

structure Mat3 where
  d0 : ℝ
  d1 : ℝ
  d2 : ℝ
  d3 : ℝ
  d4 : ℝ
  d5 : ℝ
  d6 : ℝ
  d7 : ℝ
  d8 : ℝ

namespace Mat3

/-- `Mat3.identity()` = `new Mat3()` with default data `[1,0,0,0,1,0,0,0,1]`. -/
def identity : Mat3 := ⟨1, 0, 0, 0, 1, 0, 0, 0, 1⟩

/-- `Mat3.translation(x, y)` = `new Mat3([1, 0, 0, 0, 1, 0, x, y, 1])`. -/
def translation (x y : ℝ) : Mat3 := ⟨1, 0, 0, 0, 1, 0, x, y, 1⟩

/-- `Mat3.rotation(theta)` = `new Mat3([c, -s, 0, s, c, 0, 0, 0, 1])`
with `c = cos theta`, `s = sin theta`. -/
def rotation (theta : ℝ) : Mat3 :=
  ⟨Real.cos theta, -Real.sin theta, 0,
   Real.sin theta, Real.cos theta, 0,
   0, 0, 1⟩

/-- `Mat3.scale(x, y)` = `new Mat3([x, 0, 0, 0, y, 0, 0, 0, 1])`. -/
def scale (x y : ℝ) : Mat3 := ⟨x, 0, 0, 0, y, 0, 0, 0, 1⟩

/-- `Mat3.prototype.multiply(m)`: the nine entries `c[0] .. c[8]`
exactly as computed in the source (`a` is `this._data`, `b` is
`m._data`), which then replace `this._data`. -/
def multiply (self m : Mat3) : Mat3 where
  d0 := self.d0 * m.d0 + self.d1 * m.d3 + self.d2 * m.d6
  d1 := self.d0 * m.d1 + self.d1 * m.d4 + self.d2 * m.d7
  d2 := self.d0 * m.d2 + self.d1 * m.d5 + self.d2 * m.d8
  d3 := self.d3 * m.d0 + self.d4 * m.d3 + self.d5 * m.d6
  d4 := self.d3 * m.d1 + self.d4 * m.d4 + self.d5 * m.d7
  d5 := self.d3 * m.d2 + self.d4 * m.d5 + self.d5 * m.d8
  d6 := self.d6 * m.d0 + self.d7 * m.d3 + self.d8 * m.d6
  d7 := self.d6 * m.d1 + self.d7 * m.d4 + self.d8 * m.d7
  d8 := self.d6 * m.d2 + self.d7 * m.d5 + self.d8 * m.d8

end Mat3

/-! ## Vec2d (src/Vec2d.ts)

The four private fields `#x`, `#y`, `#theta`, `#magnitude` are the
fields of the structure.  Each property setter of the source becomes a
function producing the updated record; the constructor runs the `x`
setter and then the `y` setter, exactly as `this.x = x; this.y = y`
does. -/

/-- `Math.atan2(y, x)`: the angle of the point `(x, y)`, in `(-pi, pi]`,
with `atan2 0 0 = 0`. -/
def atan2 (y x : ℝ) : ℝ :=
  if 0 < x then Real.arctan (y / x)
  else if x < 0 then
    (if 0 ≤ y then Real.arctan (y / x) + Real.pi
     else Real.arctan (y / x) - Real.pi)
  else if 0 < y then Real.pi / 2
  else if y < 0 then -(Real.pi / 2)
  else 0

/-- A `Point2d` argument: anything with numeric `x` and `y`. -/
structure Point2d where
  x : ℝ
  y : ℝ

structure Vec2d where
  x : ℝ
  y : ℝ
  theta : ℝ
  magnitude : ℝ

namespace Vec2d

/-- The `set x(x)` accessor: stores `x`, recomputes
`#theta = atan2(#y, x)` and `#magnitude = sqrt(x ** 2 + #y ** 2)`. -/
def setX (v : Vec2d) (x : ℝ) : Vec2d :=
  { v with x := x, theta := atan2 v.y x, magnitude := Real.sqrt (x ^ 2 + v.y ^ 2) }

/-- The `set y(y)` accessor: stores `y`, recomputes
`#theta = atan2(y, #x)` and `#magnitude = sqrt(#x ** 2 + y ** 2)`. -/
def setY (v : Vec2d) (y : ℝ) : Vec2d :=
  { v with y := y, theta := atan2 y v.x, magnitude := Real.sqrt (v.x ^ 2 + y ^ 2) }

/-- The `set theta(theta)` accessor: stores `theta`, recomputes
`#x = #magnitude * cos(theta)` and `#y = #magnitude * sin(theta)`. -/
def setTheta (v : Vec2d) (theta : ℝ) : Vec2d :=
  { v with theta := theta,
           x := v.magnitude * Real.cos theta,
           y := v.magnitude * Real.sin theta }

/-- The `set magnitude(magnitude)` accessor: stores `magnitude`,
recomputes `#x = magnitude * cos(#theta)` and
`#y = magnitude * sin(#theta)`. -/
def setMagnitude (v : Vec2d) (magnitude : ℝ) : Vec2d :=
  { v with magnitude := magnitude,
           x := magnitude * Real.cos v.theta,
           y := magnitude * Real.sin v.theta }

/-- `new Vec2d(x, y)`: the constructor body is `this.x = x; this.y = y`,
running the two accessors in order.  The initial field values are
irrelevant: both accessors overwrite every field they read except the
coordinate set by the other one. -/
def new (x y : ℝ) : Vec2d :=
  ((⟨0, 0, 0, 0⟩ : Vec2d).setX x).setY y

/-- `set(v)`: `this.x = v.x; this.y = v.y` (the second assignment runs
on the object already updated by the first). -/
def setVec (v : Vec2d) (p : Point2d) : Vec2d :=
  let v1 := v.setX p.x
  v1.setY p.y

/-- `copy({x = this.x, y = this.y})`: a fresh `Vec2d` from the
(possibly overridden) coordinates. -/
def copy (v : Vec2d) : Vec2d := new v.x v.y

/-- `add(v)`: `this.x += v.x; this.y += v.y`. -/
def add (v : Vec2d) (p : Point2d) : Vec2d :=
  let v1 := v.setX (v.x + p.x)
  v1.setY (v1.y + p.y)

/-- `subtract(v)`: `this.x -= v.x; this.y -= v.y`. -/
def subtract (v : Vec2d) (p : Point2d) : Vec2d :=
  let v1 := v.setX (v.x - p.x)
  v1.setY (v1.y - p.y)

/-- `multiply(scalar)`: `this.x *= scalar; this.y *= scalar`. -/
def multiplyScalar (v : Vec2d) (scalar : ℝ) : Vec2d :=
  let v1 := v.setX (v.x * scalar)
  v1.setY (v1.y * scalar)

/-- `divide(scalar)`: `this.x /= scalar; this.y /= scalar`. -/
def divide (v : Vec2d) (scalar : ℝ) : Vec2d :=
  let v1 := v.setX (v.x / scalar)
  v1.setY (v1.y / scalar)

/-- `dot(v)`: `this.x * v.x + this.y * v.y`. -/
def dot (v : Vec2d) (p : Point2d) : ℝ := v.x * p.x + v.y * p.y

/-- `cross(v)`: `this.x * v.y - this.y * v.x`. -/
def cross (v : Vec2d) (p : Point2d) : ℝ := v.x * p.y - v.y * p.x

/-- `transform(m)`: reads `x`, `y` and `z = 1`, then
`this.x = x*data[0] + y*data[1] + z*data[2]` and
`this.y = x*data[3] + y*data[4] + z*data[5]` (both through the
accessors, using the values of `x` and `y` captured before the
assignments). -/
def transform (v : Vec2d) (m : Mat3) : Vec2d :=
  (v.setX (v.x * m.d0 + v.y * m.d1 + 1 * m.d2)).setY
    (v.x * m.d3 + v.y * m.d4 + 1 * m.d5)

/-- `translate(v)`: `this.transform(Mat3.translation(v.x, v.y))`. -/
def translate (v : Vec2d) (p : Point2d) : Vec2d :=
  v.transform (Mat3.translation p.x p.y)

/-- `rotate(theta)`: `this.transform(Mat3.rotation(theta))`. -/
def rotate (v : Vec2d) (theta : ℝ) : Vec2d :=
  v.transform (Mat3.rotation theta)

/-- `scale(v)`: `this.transform(Mat3.scale(v.x, v.y))`. -/
def scaleVec (v : Vec2d) (p : Point2d) : Vec2d :=
  v.transform (Mat3.scale p.x p.y)

/-- `normalize()`: reads `this.magnitude` and divides by it unless it
is exactly `0`, in which case the vector is left unchanged. -/
def normalize (v : Vec2d) : Vec2d :=
  if v.magnitude ≠ 0 then v.divide v.magnitude else v

end Vec2d

/-! ## Mat4, value level

The 4x4 matrix class stores `#data = [i1j1, i1j2, ..., i4j4]` in
row-major order; field `iIjJ` models slot `#data[4*(I-1) + (J-1)]`. -/

structure Mat4 where
  i1j1 : ℝ
  i1j2 : ℝ
  i1j3 : ℝ
  i1j4 : ℝ
  i2j1 : ℝ
  i2j2 : ℝ
  i2j3 : ℝ
  i2j4 : ℝ
  i3j1 : ℝ
  i3j2 : ℝ
  i3j3 : ℝ
  i3j4 : ℝ
  i4j1 : ℝ
  i4j2 : ℝ
  i4j3 : ℝ
  i4j4 : ℝ

namespace Mat4

/-- `copy()` = `new Mat4(...this.#data)`. -/
def copy (m : Mat4) : Mat4 :=
  ⟨m.i1j1, m.i1j2, m.i1j3, m.i1j4, m.i2j1, m.i2j2, m.i2j3, m.i2j4,
   m.i3j1, m.i3j2, m.i3j3, m.i3j4, m.i4j1, m.i4j2, m.i4j3, m.i4j4⟩

/-- `Mat4.prototype.multiply(m)`: the sixteen entries `c[0] .. c[15]`
exactly as computed in the source (`a` is `this.#data`, `b` is
`m.#data`), which then replace `this.#data`. -/
def multiply (self m : Mat4) : Mat4 where
  i1j1 := self.i1j1 * m.i1j1 + self.i1j2 * m.i2j1 + self.i1j3 * m.i3j1 + self.i1j4 * m.i4j1
  i1j2 := self.i1j1 * m.i1j2 + self.i1j2 * m.i2j2 + self.i1j3 * m.i3j2 + self.i1j4 * m.i4j2
  i1j3 := self.i1j1 * m.i1j3 + self.i1j2 * m.i2j3 + self.i1j3 * m.i3j3 + self.i1j4 * m.i4j3
  i1j4 := self.i1j1 * m.i1j4 + self.i1j2 * m.i2j4 + self.i1j3 * m.i3j4 + self.i1j4 * m.i4j4
  i2j1 := self.i2j1 * m.i1j1 + self.i2j2 * m.i2j1 + self.i2j3 * m.i3j1 + self.i2j4 * m.i4j1
  i2j2 := self.i2j1 * m.i1j2 + self.i2j2 * m.i2j2 + self.i2j3 * m.i3j2 + self.i2j4 * m.i4j2
  i2j3 := self.i2j1 * m.i1j3 + self.i2j2 * m.i2j3 + self.i2j3 * m.i3j3 + self.i2j4 * m.i4j3
  i2j4 := self.i2j1 * m.i1j4 + self.i2j2 * m.i2j4 + self.i2j3 * m.i3j4 + self.i2j4 * m.i4j4
  i3j1 := self.i3j1 * m.i1j1 + self.i3j2 * m.i2j1 + self.i3j3 * m.i3j1 + self.i3j4 * m.i4j1
  i3j2 := self.i3j1 * m.i1j2 + self.i3j2 * m.i2j2 + self.i3j3 * m.i3j2 + self.i3j4 * m.i4j2
  i3j3 := self.i3j1 * m.i1j3 + self.i3j2 * m.i2j3 + self.i3j3 * m.i3j3 + self.i3j4 * m.i4j3
  i3j4 := self.i3j1 * m.i1j4 + self.i3j2 * m.i2j4 + self.i3j3 * m.i3j4 + self.i3j4 * m.i4j4
  i4j1 := self.i4j1 * m.i1j1 + self.i4j2 * m.i2j1 + self.i4j3 * m.i3j1 + self.i4j4 * m.i4j1
  i4j2 := self.i4j1 * m.i1j2 + self.i4j2 * m.i2j2 + self.i4j3 * m.i3j2 + self.i4j4 * m.i4j2
  i4j3 := self.i4j1 * m.i1j3 + self.i4j2 * m.i2j3 + self.i4j3 * m.i3j3 + self.i4j4 * m.i4j3
  i4j4 := self.i4j1 * m.i1j4 + self.i4j2 * m.i2j4 + self.i4j3 * m.i3j4 + self.i4j4 * m.i4j4

/-- `Mat4.identity()`. -/
def identity : Mat4 := ⟨1, 0, 0, 0, 0, 1, 0, 0, 0, 0, 1, 0, 0, 0, 0, 1⟩

/-- `Mat4.translation(x, y, z)`. -/
def translation (x y z : ℝ) : Mat4 :=
  ⟨1, 0, 0, 0, 0, 1, 0, 0, 0, 0, 1, 0, x, y, z, 1⟩

/-- `Mat4.rotationZ(theta)` with `c = cos theta`, `s = sin theta`. -/
def rotationZ (theta : ℝ) : Mat4 :=
  ⟨Real.cos theta, -Real.sin theta, 0, 0,
   Real.sin theta, Real.cos theta, 0, 0,
   0, 0, 1, 0,
   0, 0, 0, 1⟩

/-- `Mat4.perspective(fieldOfView, aspect, near, far)`: converts
`fieldOfView` to radians, computes `f = 1 / tan(fieldOfView / 2)` and
`q = far / (far - near)`, then builds
`new Mat4((1/aspect)*f, 0, 0, 0, 0, f, 0, 0, 0, 0, q, -q*near, 0, 0, 1, 0)`. -/
def perspective (fieldOfView aspect near far : ℝ) : Mat4 :=
  let fieldOfView := fieldOfView * Real.pi / 180
  let f := 1 / Real.tan (fieldOfView / 2)
  let q := far / (far - near)
  ⟨(1 / aspect) * f, 0, 0, 0,
   0, f, 0, 0,
   0, 0, q, -q * near,
   0, 0, 1, 0⟩

/-- The row-major 4x4 matrix view of the flat data. -/
def toMatrix (m : Mat4) : Matrix (Fin 4) (Fin 4) ℝ :=
  !![m.i1j1, m.i1j2, m.i1j3, m.i1j4;
     m.i2j1, m.i2j2, m.i2j3, m.i2j4;
     m.i3j1, m.i3j2, m.i3j3, m.i3j4;
     m.i4j1, m.i4j2, m.i4j3, m.i4j4]

end Mat4

/-! ### C2: multiply is the standard product, and order matters -/

/-- **C2.** `A.multiply(B)` computes the standard row-by-column matrix
product `A × B` (its row-major view is the `Matrix` product of the
row-major views), and for `T = Mat4.translation(1,0,0)` and
`R = Mat4.rotationZ(pi/2)`, `T.copy().multiply(R)` differs from
`R.copy().multiply(T)` (they disagree at the fourth-row, first-column
entry: `0` versus `1`). -/
theorem mat4_multiply_standard_product_and_noncommutative :
    (∀ A B : Mat4, (A.multiply B).toMatrix = A.toMatrix * B.toMatrix) ∧
    (Mat4.translation 1 0 0).copy.multiply (Mat4.rotationZ (Real.pi / 2)) ≠
      (Mat4.rotationZ (Real.pi / 2)).copy.multiply (Mat4.translation 1 0 0) := by
  constructor
  · intro A B
    ext i j
    fin_cases i <;> fin_cases j <;>
      simp [Mat4.multiply, Mat4.toMatrix, Matrix.mul_apply, Fin.sum_univ_four]
  · intro h
    have h41 := congrArg Mat4.i4j1 h
    simp [Mat4.multiply, Mat4.copy, Mat4.translation, Mat4.rotationZ,
      Real.cos_pi_div_two, Real.sin_pi_div_two] at h41

/-! ### C3: the perspective projection matrix -/

/-- **C3.** `Mat4.perspective(fieldOfView, aspect, near, far)` converts
`fieldOfView` from degrees to radians, computes
`f = 1 / tan(fieldOfView / 2)` and `q = far / (far - near)`, and
returns the row-major matrix with rows `(f/aspect, 0, 0, 0)`,
`(0, f, 0, 0)`, `(0, 0, q, -q*near)`, `(0, 0, 1, 0)` — for **all**
inputs, including `far == near`, where no guard, clamp or error
intervenes and the entries at positions (3,3) and (3,4) are literally
the division-by-zero values `far / 0` and `-(far / 0) * near`. -/
theorem mat4_perspective_formula :
    (∀ fieldOfView aspect near far : ℝ,
      (Mat4.perspective fieldOfView aspect near far).toMatrix =
        !![(1 / Real.tan (fieldOfView * Real.pi / 180 / 2)) / aspect, 0, 0, 0;
           0, 1 / Real.tan (fieldOfView * Real.pi / 180 / 2), 0, 0;
           0, 0, far / (far - near), -(far / (far - near)) * near;
           0, 0, 1, 0]) ∧
    (∀ fieldOfView aspect near : ℝ,
      (Mat4.perspective fieldOfView aspect near near).i3j3 = near / 0 ∧
      (Mat4.perspective fieldOfView aspect near near).i3j4 = -(near / 0) * near) := by
  constructor
  · intro fieldOfView aspect near far
    ext i j
    fin_cases i <;> fin_cases j <;>
      · simp [Mat4.perspective, Mat4.toMatrix]
        try ring
  · intro fieldOfView aspect near
    refine ⟨?_, ?_⟩ <;> simp [Mat4.perspective]

/-! ### C9: multiplying by the identity matrix -/

/-- **C9.** For every `Mat3` and every `Mat4`, `M.multiply(identity())`
leaves `M`'s data component-wise equal to its value before the call. -/
theorem mat_multiply_identity :
    (∀ M : Mat3, M.multiply Mat3.identity = M) ∧
    (∀ M : Mat4, M.multiply Mat4.identity = M) := by
  constructor
  · intro M
    cases M
    simp [Mat3.multiply, Mat3.identity]
  · intro M
    cases M
    simp [Mat4.multiply, Mat4.identity]

/-! ### C1: translation through `Vec2d.transform` -/

/-- **C1.** The claim asserts `Vec2d(0,0).translate({x:3,y:4})` yields
`(3,4)`.  The code disagrees: `transform` computes the new coordinates
from `data[0..5]`, but `Mat3.translation` stores the offsets in
`data[6]` and `data[7]`, so `translate` never changes the coordinates.
This theorem evaluates the code: `translate` is a component-wise no-op
for every vector and every offset, and in particular
`Vec2d(0,0).translate({x:3,y:4})` is `(0,0)`, not `(3,4)`. -/
theorem vec2d_translate_is_noop :
    (∀ (v : Vec2d) (p : Point2d),
      (v.translate p).x = v.x ∧ (v.translate p).y = v.y) ∧
    ((Vec2d.new 0 0).translate ⟨3, 4⟩).x = 0 ∧
    ((Vec2d.new 0 0).translate ⟨3, 4⟩).y = 0 := by
  have h : ∀ (v : Vec2d) (p : Point2d),
      (v.translate p).x = v.x ∧ (v.translate p).y = v.y := by
    intro v p
    simp [Vec2d.translate, Vec2d.transform, Vec2d.setX, Vec2d.setY,
      Mat3.translation]
  refine ⟨h, ?_, ?_⟩
  · rw [(h _ _).1]
    simp [Vec2d.new, Vec2d.setX, Vec2d.setY]
  · rw [(h _ _).2]
    simp [Vec2d.new, Vec2d.setX, Vec2d.setY]

/-! ### C5: Cartesian/polar synchronization -/

/-- **C5, counterexample.** The claim asserts the invariant "reading
`magnitude` returns `sqrt(x^2 + y^2)`" after *any* setter completes.
It fails after the public `magnitude` setter is given a negative
value: for `Vec2d(1,0)` with `magnitude` set to `-2`, the coordinates
become `(-2, 0)` (not both zero), but reading `magnitude` returns `-2`
while `sqrt(x^2 + y^2) = 2`. -/
theorem vec2d_invariant_fails_after_negative_magnitude :
    ¬ (((Vec2d.new 1 0).setMagnitude (-2)).x = 0 ∧
       ((Vec2d.new 1 0).setMagnitude (-2)).y = 0) ∧
    ((Vec2d.new 1 0).setMagnitude (-2)).magnitude ≠
      Real.sqrt (((Vec2d.new 1 0).setMagnitude (-2)).x ^ 2 +
        ((Vec2d.new 1 0).setMagnitude (-2)).y ^ 2) := by
  have hx : ((Vec2d.new 1 0).setMagnitude (-2)).x = -2 := by
    norm_num [Vec2d.new, Vec2d.setX, Vec2d.setY, Vec2d.setMagnitude, atan2,
      Real.arctan_zero, Real.cos_zero]
  have hm : ((Vec2d.new 1 0).setMagnitude (-2)).magnitude = -2 := by
    norm_num [Vec2d.new, Vec2d.setX, Vec2d.setY, Vec2d.setMagnitude]
  refine ⟨?_, ?_⟩
  · rintro ⟨h, -⟩
    rw [hx] at h
    norm_num at h
  · rw [hm]
    intro h
    have h0 := Real.sqrt_nonneg (((Vec2d.new 1 0).setMagnitude (-2)).x ^ 2 +
      ((Vec2d.new 1 0).setMagnitude (-2)).y ^ 2)
    rw [← h] at h0
    norm_num at h0

/-- **C5, amended.** After *constructing* `Vec2d(x, y)` with `(x, y)`
not both zero, reading `magnitude` returns `sqrt(x^2 + y^2)` and
reading `theta` returns `atan2(y, x)`; and after setting `magnitude`
to `m`, reading back `x` and `y` returns `m * cos(theta)` and
`m * sin(theta)` for the current `theta` (which the setter leaves
unchanged). -/
theorem vec2d_polar_cartesian_consistency (x y : ℝ) (_h : ¬(x = 0 ∧ y = 0)) :
    ((Vec2d.new x y).magnitude = Real.sqrt (x ^ 2 + y ^ 2) ∧
     (Vec2d.new x y).theta = atan2 y x) ∧
    ∀ m : ℝ,
      ((Vec2d.new x y).setMagnitude m).x =
        m * Real.cos (((Vec2d.new x y).setMagnitude m).theta) ∧
      ((Vec2d.new x y).setMagnitude m).y =
        m * Real.sin (((Vec2d.new x y).setMagnitude m).theta) ∧
      ((Vec2d.new x y).setMagnitude m).theta = (Vec2d.new x y).theta := by
  refine ⟨⟨?_, ?_⟩, fun m => ⟨?_, ?_, ?_⟩⟩ <;>
    simp [Vec2d.new, Vec2d.setX, Vec2d.setY, Vec2d.setMagnitude]

/-- Witness for `vec2d_polar_cartesian_consistency` at `(x, y) = (3, 4)`. -/
theorem vec2d_polar_cartesian_consistency_witness :
    ¬((3 : ℝ) = 0 ∧ (4 : ℝ) = 0) ∧
    (((Vec2d.new 3 4).magnitude = Real.sqrt (3 ^ 2 + 4 ^ 2) ∧
      (Vec2d.new 3 4).theta = atan2 4 3) ∧
     ∀ m : ℝ,
       ((Vec2d.new 3 4).setMagnitude m).x =
         m * Real.cos (((Vec2d.new 3 4).setMagnitude m).theta) ∧
       ((Vec2d.new 3 4).setMagnitude m).y =
         m * Real.sin (((Vec2d.new 3 4).setMagnitude m).theta) ∧
       ((Vec2d.new 3 4).setMagnitude m).theta = (Vec2d.new 3 4).theta) :=
  ⟨by norm_num, vec2d_polar_cartesian_consistency 3 4 (by norm_num)⟩

/-! ### C7: normalize -/

/-- **C7.** `Vec2d(0,0).normalize()` leaves the vector at `(0,0)` (it
is exactly the unchanged vector, so nothing is thrown and no division
happens), and for every vector with nonzero magnitude, `normalize`
divides both components by the magnitude. -/
theorem vec2d_normalize_zero_noop_and_divides :
    (((Vec2d.new 0 0).normalize).x = 0 ∧ ((Vec2d.new 0 0).normalize).y = 0 ∧
      (Vec2d.new 0 0).normalize = Vec2d.new 0 0) ∧
    ∀ v : Vec2d, v.magnitude ≠ 0 →
      (v.normalize).x = v.x / v.magnitude ∧
      (v.normalize).y = v.y / v.magnitude := by
  have hmag : (Vec2d.new 0 0).magnitude = 0 := by
    norm_num [Vec2d.new, Vec2d.setX, Vec2d.setY, Real.sqrt_zero]
  have hnoop : (Vec2d.new 0 0).normalize = Vec2d.new 0 0 := by
    simp [Vec2d.normalize, hmag]
  refine ⟨⟨?_, ?_, hnoop⟩, fun v h => ?_⟩
  · rw [hnoop]
    norm_num [Vec2d.new, Vec2d.setX, Vec2d.setY]
  · rw [hnoop]
    norm_num [Vec2d.new, Vec2d.setX, Vec2d.setY]
  · simp [Vec2d.normalize, h, Vec2d.divide, Vec2d.setX, Vec2d.setY]

/-- Witness for `vec2d_normalize_zero_noop_and_divides` at the vector
`Vec2d(3, 4)`, whose magnitude `sqrt(3^2 + 4^2)` is nonzero. -/
theorem vec2d_normalize_witness :
    (Vec2d.new 3 4).magnitude ≠ 0 ∧
    ((Vec2d.new 3 4).normalize).x = (Vec2d.new 3 4).x / (Vec2d.new 3 4).magnitude ∧
    ((Vec2d.new 3 4).normalize).y = (Vec2d.new 3 4).y / (Vec2d.new 3 4).magnitude := by
  have hm : (Vec2d.new 3 4).magnitude ≠ 0 := by
    have h : (Vec2d.new 3 4).magnitude = Real.sqrt ((3 : ℝ) ^ 2 + (4 : ℝ) ^ 2) := by
      simp [Vec2d.new, Vec2d.setX, Vec2d.setY]
    rw [h, Real.sqrt_ne_zero']
    norm_num
  exact ⟨hm, vec2d_normalize_zero_noop_and_divides.2 (Vec2d.new 3 4) hm⟩

/-! ### C8: rotation round-trip -/

/-- **C8.** For every angle `t`, rotating `Vec2d(1, 0)` by `t` and then
by `-t` returns the vector to `(1, 0)` exactly (in real arithmetic). -/
theorem vec2d_rotate_round_trip :
    ∀ t : ℝ,
      (((Vec2d.new 1 0).rotate t).rotate (-t)).x = 1 ∧
      (((Vec2d.new 1 0).rotate t).rotate (-t)).y = 0 := by
  intro t
  constructor <;>
    · simp [Vec2d.new, Vec2d.rotate, Vec2d.transform, Vec2d.setX, Vec2d.setY,
        Mat3.rotation, Real.cos_neg, Real.sin_neg]
      nlinarith [Real.sin_sq_add_cos_sq t]

/-! ## Array store model for aliasing

JavaScript arrays are heap objects handled by reference.  `Mat3`'s
`_data` and `Mat4`'s `#data` fields hold such references, and `copy`
and `multiply` differ in whether they allocate a fresh array.  A store
is a list of arrays addressed by allocation order; a matrix object is
modelled by the address its data field currently holds.  The element
type is any field, instantiated at ℚ in the concrete evaluations. -/

abbrev Store (α : Type) := List (List α)

/-- Allocate a fresh array, returning the new store and its address. -/
def allocArr {α : Type} (s : Store α) (a : List α) : Store α × Nat :=
  (s ++ [a], s.length)

/-- Read the array at an address (`[]` at a dangling address). -/
def readArr {α : Type} (s : Store α) (r : Nat) : List α :=
  s.getD r []

/-- `arr[i] = v`: overwrite one element of the array at address `r`. -/
def writeArr {α : Type} (s : Store α) (r i : Nat) (v : α) : Store α :=
  s.set r ((s.getD r []).set i v)

/-- Element `i` of an array, as the source reads `a[i]`. -/
def elemAt {α : Type} [Zero α] (l : List α) (i : Nat) : α := l.getD i 0

/-- A `Mat3` object: its `_data` field holding an array reference. -/
structure Mat3Obj where
  dataRef : Nat

namespace Mat3Obj

variable {α : Type} [Field α]

/-- `new Mat3()`: the defaulted constructor evaluates the default
argument `[1, 0, 0, 0, 1, 0, 0, 0, 1]`, allocating a fresh identity
array, and stores its reference in `_data`. -/
def newDefault (s : Store α) : Store α × Mat3Obj :=
  let p := allocArr s [1, 0, 0, 0, 1, 0, 0, 0, 1]
  (p.1, ⟨p.2⟩)

/-- `set(data)`: `this._data = data` — the field now holds the *given*
array reference; no elements are copied. -/
def setRef (_m : Mat3Obj) (r : Nat) : Mat3Obj := ⟨r⟩

/-- `copy()`: `new Mat3().set(this._data)` — allocates a default array
(immediately orphaned) and points the new object at the original's
array. -/
def copy (s : Store α) (m : Mat3Obj) : Store α × Mat3Obj :=
  let p := newDefault (α := α) s
  (p.1, p.2.setRef m.dataRef)

/-- The `data` getter returns the array reference held in `_data`. -/
def dataGet (m : Mat3Obj) : Nat := m.dataRef

/-- `multiply(m)`: reads `a = this._data` and `b = m._data`, fills a
fresh array `c` with the nine row-by-column entries, and rebinds
`this._data` to `c`. -/
def multiply (s : Store α) (self m : Mat3Obj) : Store α × Mat3Obj :=
  let a := readArr s self.dataRef
  let b := readArr s m.dataRef
  let c : List α :=
    [elemAt a 0 * elemAt b 0 + elemAt a 1 * elemAt b 3 + elemAt a 2 * elemAt b 6,
     elemAt a 0 * elemAt b 1 + elemAt a 1 * elemAt b 4 + elemAt a 2 * elemAt b 7,
     elemAt a 0 * elemAt b 2 + elemAt a 1 * elemAt b 5 + elemAt a 2 * elemAt b 8,
     elemAt a 3 * elemAt b 0 + elemAt a 4 * elemAt b 3 + elemAt a 5 * elemAt b 6,
     elemAt a 3 * elemAt b 1 + elemAt a 4 * elemAt b 4 + elemAt a 5 * elemAt b 7,
     elemAt a 3 * elemAt b 2 + elemAt a 4 * elemAt b 5 + elemAt a 5 * elemAt b 8,
     elemAt a 6 * elemAt b 0 + elemAt a 7 * elemAt b 3 + elemAt a 8 * elemAt b 6,
     elemAt a 6 * elemAt b 1 + elemAt a 7 * elemAt b 4 + elemAt a 8 * elemAt b 7,
     elemAt a 6 * elemAt b 2 + elemAt a 7 * elemAt b 5 + elemAt a 8 * elemAt b 8]
  let p := allocArr s c
  (p.1, ⟨p.2⟩)

end Mat3Obj

/-- A `Mat4` object: its `#data` field holding an array reference. -/
structure Mat4Obj where
  dataRef : Nat

namespace Mat4Obj

variable {α : Type} [Field α]

/-- `new Mat4(i1j1, ..., i4j4)`: the constructor builds a fresh
`#data` array from its sixteen arguments. -/
def new (s : Store α) (vals : List α) : Store α × Mat4Obj :=
  let p := allocArr s vals
  (p.1, ⟨p.2⟩)

/-- `copy()`: `new Mat4(...this.#data)` — spreads the elements into a
fresh array, so the copy's array is independent of the original's. -/
def copy (s : Store α) (m : Mat4Obj) : Store α × Mat4Obj :=
  new s (readArr s m.dataRef)

/-- `multiply(m)`: reads `a = this.#data` and `b = m.#data`, fills a
fresh array `c` with the sixteen row-by-column entries, and rebinds
`this.#data` to `c`. -/
def multiply (s : Store α) (self m : Mat4Obj) : Store α × Mat4Obj :=
  let a := readArr s self.dataRef
  let b := readArr s m.dataRef
  let c : List α :=
    [elemAt a 0 * elemAt b 0 + elemAt a 1 * elemAt b 4 + elemAt a 2 * elemAt b 8 + elemAt a 3 * elemAt b 12,
     elemAt a 0 * elemAt b 1 + elemAt a 1 * elemAt b 5 + elemAt a 2 * elemAt b 9 + elemAt a 3 * elemAt b 13,
     elemAt a 0 * elemAt b 2 + elemAt a 1 * elemAt b 6 + elemAt a 2 * elemAt b 10 + elemAt a 3 * elemAt b 14,
     elemAt a 0 * elemAt b 3 + elemAt a 1 * elemAt b 7 + elemAt a 2 * elemAt b 11 + elemAt a 3 * elemAt b 15,
     elemAt a 4 * elemAt b 0 + elemAt a 5 * elemAt b 4 + elemAt a 6 * elemAt b 8 + elemAt a 7 * elemAt b 12,
     elemAt a 4 * elemAt b 1 + elemAt a 5 * elemAt b 5 + elemAt a 6 * elemAt b 9 + elemAt a 7 * elemAt b 13,
     elemAt a 4 * elemAt b 2 + elemAt a 5 * elemAt b 6 + elemAt a 6 * elemAt b 10 + elemAt a 7 * elemAt b 14,
     elemAt a 4 * elemAt b 3 + elemAt a 5 * elemAt b 7 + elemAt a 6 * elemAt b 11 + elemAt a 7 * elemAt b 15,
     elemAt a 8 * elemAt b 0 + elemAt a 9 * elemAt b 4 + elemAt a 10 * elemAt b 8 + elemAt a 11 * elemAt b 12,
     elemAt a 8 * elemAt b 1 + elemAt a 9 * elemAt b 5 + elemAt a 10 * elemAt b 9 + elemAt a 11 * elemAt b 13,
     elemAt a 8 * elemAt b 2 + elemAt a 9 * elemAt b 6 + elemAt a 10 * elemAt b 10 + elemAt a 11 * elemAt b 14,
     elemAt a 8 * elemAt b 3 + elemAt a 9 * elemAt b 7 + elemAt a 10 * elemAt b 11 + elemAt a 11 * elemAt b 15,
     elemAt a 12 * elemAt b 0 + elemAt a 13 * elemAt b 4 + elemAt a 14 * elemAt b 8 + elemAt a 15 * elemAt b 12,
     elemAt a 12 * elemAt b 1 + elemAt a 13 * elemAt b 5 + elemAt a 14 * elemAt b 9 + elemAt a 15 * elemAt b 13,
     elemAt a 12 * elemAt b 2 + elemAt a 13 * elemAt b 6 + elemAt a 14 * elemAt b 10 + elemAt a 15 * elemAt b 14,
     elemAt a 12 * elemAt b 3 + elemAt a 13 * elemAt b 7 + elemAt a 14 * elemAt b 11 + elemAt a 15 * elemAt b 15]
  let p := allocArr s c
  (p.1, ⟨p.2⟩)

end Mat4Obj

/-- Reading a valid address is unchanged by an allocation. -/
theorem readArr_alloc_of_lt {α : Type} (s : Store α) (c : List α) (r : Nat)
    (h : r < s.length) : readArr (s ++ [c]) r = readArr s r := by
  simp only [readArr, List.getD, List.get?_eq_getElem?]
  rw [List.getElem?_append_left h]

/-! ### C10: `multiply` never modifies its argument -/

/-- **C10.** For every store and every pair of matrix objects (Mat3 or
Mat4) whose argument holds a valid array address — including the case
where both are the very same object — `A.multiply(B)` leaves the array
`B`'s data field points to unchanged: `multiply` only reads `B`'s
array and allocates a fresh array for its own result. -/
theorem mat_multiply_preserves_argument {α : Type} [Field α]
    (s3 : Store α) (a3 b3 : Mat3Obj) (s4 : Store α) (a4 b4 : Mat4Obj)
    (h3 : b3.dataRef < s3.length) (h4 : b4.dataRef < s4.length) :
    readArr (Mat3Obj.multiply s3 a3 b3).1 b3.dataRef = readArr s3 b3.dataRef ∧
    readArr (Mat4Obj.multiply s4 a4 b4).1 b4.dataRef = readArr s4 b4.dataRef :=
  ⟨readArr_alloc_of_lt s3 _ b3.dataRef h3, readArr_alloc_of_lt s4 _ b4.dataRef h4⟩

/-- Witness for `mat_multiply_preserves_argument`: one-matrix stores
over ℚ, multiplying each identity object by itself. -/
theorem mat_multiply_preserves_argument_witness :
    ((Mat3Obj.mk 0).dataRef < ([[1, 0, 0, 0, 1, 0, 0, 0, 1]] : Store ℚ).length ∧
     (Mat4Obj.mk 0).dataRef <
       ([[1, 0, 0, 0, 0, 1, 0, 0, 0, 0, 1, 0, 0, 0, 0, 1]] : Store ℚ).length) ∧
    readArr (Mat3Obj.multiply [[1, 0, 0, 0, 1, 0, 0, 0, 1]]
        (Mat3Obj.mk 0) (Mat3Obj.mk 0)).1 (Mat3Obj.mk 0).dataRef =
      readArr ([[1, 0, 0, 0, 1, 0, 0, 0, 1]] : Store ℚ) (Mat3Obj.mk 0).dataRef ∧
    readArr (Mat4Obj.multiply [[1, 0, 0, 0, 0, 1, 0, 0, 0, 0, 1, 0, 0, 0, 0, 1]]
        (Mat4Obj.mk 0) (Mat4Obj.mk 0)).1 (Mat4Obj.mk 0).dataRef =
      readArr ([[1, 0, 0, 0, 0, 1, 0, 0, 0, 0, 1, 0, 0, 0, 0, 1]] : Store ℚ)
        (Mat4Obj.mk 0).dataRef :=
  ⟨⟨by decide, by decide⟩,
   (mat_multiply_preserves_argument [[1, 0, 0, 0, 1, 0, 0, 0, 1]]
      (Mat3Obj.mk 0) (Mat3Obj.mk 0)
      [[1, 0, 0, 0, 0, 1, 0, 0, 0, 0, 1, 0, 0, 0, 0, 1]]
      (Mat4Obj.mk 0) (Mat4Obj.mk 0) (by decide) (by decide)).1,
   (mat_multiply_preserves_argument [[1, 0, 0, 0, 1, 0, 0, 0, 1]]
      (Mat3Obj.mk 0) (Mat3Obj.mk 0)
      [[1, 0, 0, 0, 0, 1, 0, 0, 0, 0, 1, 0, 0, 0, 0, 1]]
      (Mat4Obj.mk 0) (Mat4Obj.mk 0) (by decide) (by decide)).2⟩

/-! ### C6: copy independence fails for `Mat3` -/

/-- **C6.** The claim requires that mutating `m.copy()` never changes
`m`'s underlying data.  For `Mat3` the code violates it: `copy` stores
the *original's* array reference in the copy (first conjunct), so an
element write through the copy's `data` accessor lands in the
original's array.  Concretely, with `m = Mat3.identity()` and
`c = m.copy()`, after `c.data[0] = 99` the original `m`'s array reads
`[99, 0, 0, 0, 1, 0, 0, 0, 1]`, while before the write it was the
identity array. -/
theorem mat3_copy_shares_backing_array :
    (∀ (s : Store ℚ) (m : Mat3Obj), (Mat3Obj.copy s m).2.dataRef = m.dataRef) ∧
    readArr
        (writeArr
          (Mat3Obj.copy (Mat3Obj.newDefault (α := ℚ) []).1
            (Mat3Obj.newDefault (α := ℚ) []).2).1
          (Mat3Obj.copy (Mat3Obj.newDefault (α := ℚ) []).1
            (Mat3Obj.newDefault (α := ℚ) []).2).2.dataGet 0 99)
        (Mat3Obj.newDefault (α := ℚ) []).2.dataRef =
      [99, 0, 0, 0, 1, 0, 0, 0, 1] ∧
    readArr
        (Mat3Obj.copy (Mat3Obj.newDefault (α := ℚ) []).1
          (Mat3Obj.newDefault (α := ℚ) []).2).1
        (Mat3Obj.newDefault (α := ℚ) []).2.dataRef =
      [1, 0, 0, 0, 1, 0, 0, 0, 1] := by
  refine ⟨fun s m => rfl, by decide, by decide⟩

/-! ## Kanvas facade: context handling (src/Kanvas.ts)

Only the context-dependent behaviour is modelled.  The 2D context —
the result of `canvas.getContext("2d")`, possibly `null` — is an
`Option`; the `context` getter either throws or returns it; every
style setter writes its backing field and then writes through the
getter; and the constructor runs the nine style-setter assignments
followed by `resize`.  Throwing is modelled by `Except String`. -/

/-- The mutable style state of a `CanvasRenderingContext2D`. -/
structure Ctx2d where
  fillStyle : String
  strokeStyle : String
  lineWidth : ℚ
  lineDash : List ℚ
  lineDashOffset : ℚ
  textAlign : String
  textBaseline : String
  font : String
  globalAlpha : ℚ

/-- The fields of a `Kanvas` instance that the claims observe: the id,
the stored (possibly `null`) context, the nine style backing fields
with their initializer values, and the size set by `resize`. -/
structure KanvasState where
  id : String
  context : Option Ctx2d
  fillStyle : String
  strokeStyle : String
  lineWidth : ℚ
  lineDash : List ℚ
  lineDashOffset : ℚ
  textAlign : String
  textBaseline : String
  font : String
  globalAlpha : ℚ
  width : ℚ
  height : ℚ
  aspectRatio : ℚ
  centerX : ℚ
  centerY : ℚ

namespace Kanvas

/-- The `context` getter: throws
`Error("CanvasRenderingContext2D is null")` when the stored context is
`null`, otherwise returns it. -/
def contextGet (k : KanvasState) : Except String Ctx2d :=
  match k.context with
  | none => Except.error "CanvasRenderingContext2D is null"
  | some c => Except.ok c

/-- Shared shape of every style setter's second statement
`this.context.<prop> = value`: read the getter (which may throw), then
update the context's state. -/
def withContext (k : KanvasState) (f : Ctx2d → Ctx2d) :
    Except String KanvasState := do
  let c ← contextGet k
  pure { k with context := some (f c) }

/-- `set fillStyle(color)`: `this.#fillStyle = color;
this.context.fillStyle = color`. -/
def setFillStyle (k : KanvasState) (color : String) : Except String KanvasState :=
  withContext { k with fillStyle := color } fun c => { c with fillStyle := color }

/-- `set strokeStyle(value)`. -/
def setStrokeStyle (k : KanvasState) (value : String) : Except String KanvasState :=
  withContext { k with strokeStyle := value } fun c => { c with strokeStyle := value }

/-- `set lineWidth(value)`. -/
def setLineWidth (k : KanvasState) (value : ℚ) : Except String KanvasState :=
  withContext { k with lineWidth := value } fun c => { c with lineWidth := value }

/-- `set lineDash(value)`. -/
def setLineDash (k : KanvasState) (value : List ℚ) : Except String KanvasState :=
  withContext { k with lineDash := value } fun c => { c with lineDash := value }

/-- `set lineDashOffset(value)`. -/
def setLineDashOffset (k : KanvasState) (value : ℚ) : Except String KanvasState :=
  withContext { k with lineDashOffset := value } fun c => { c with lineDashOffset := value }

/-- `set textAlign(value)`. -/
def setTextAlign (k : KanvasState) (value : String) : Except String KanvasState :=
  withContext { k with textAlign := value } fun c => { c with textAlign := value }

/-- `set textBaseline(value)`. -/
def setTextBaseline (k : KanvasState) (value : String) : Except String KanvasState :=
  withContext { k with textBaseline := value } fun c => { c with textBaseline := value }

/-- `set font(value)`. -/
def setFont (k : KanvasState) (value : String) : Except String KanvasState :=
  withContext { k with font := value } fun c => { c with font := value }

/-- `set globalAlpha(value)`. -/
def setGlobalAlpha (k : KanvasState) (value : ℚ) : Except String KanvasState :=
  withContext { k with globalAlpha := value } fun c => { c with globalAlpha := value }

/-- `+(x).toFixed(4)`: round to four decimal places. -/
def roundTo4 (q : ℚ) : ℚ := (round (q * 10000) : ℚ) / 10000

/-- `resize(width, height)`: sets the canvas size, the aspect ratio
`width / height`, and the center `(width/2, height/2)` rounded through
`toFixed(4)`.  It touches only the canvas element, never the context
getter. -/
def resize (k : KanvasState) (width height : ℚ) : KanvasState :=
  { k with width := width, height := height, aspectRatio := width / height,
           centerX := roundTo4 (width / 2), centerY := roundTo4 (height / 2) }

/-- `new Kanvas(id, width, height)`: stores the id and the context
obtained from the canvas lookup (passed in as `ctx`, since the DOM is
external), then assigns the nine style defaults through their setters
and calls `resize`.  Each setter assignment reads the `context`
getter. -/
def construct (id : String) (ctx : Option Ctx2d) (width height : ℚ) :
    Except String KanvasState := do
  let k : KanvasState :=
    { id := id, context := ctx,
      fillStyle := "#fff", strokeStyle := "#fff", lineWidth := 1,
      lineDash := [], lineDashOffset := 0, textAlign := "start",
      textBaseline := "alphabetic", font := "10px sans-serif",
      globalAlpha := 1, width := 0, height := 0, aspectRatio := 1,
      centerX := 0, centerY := 0 }
  let k ← setFillStyle k "#fff"
  let k ← setStrokeStyle k "#fff"
  let k ← setLineWidth k 1
  let k ← setLineDash k []
  let k ← setLineDashOffset k 0
  let k ← setTextAlign k "start"
  let k ← setTextBaseline k "alphabetic"
  let k ← setFont k "10px sans-serif"
  let k ← setGlobalAlpha k 1
  pure (resize k width height)

/-- `beginPath()`: `this.context.beginPath()` — a representative draw
call; it reads the `context` getter and performs a path operation on
the drawing surface (which is external to this model). -/
def beginPath (k : KanvasState) : Except String KanvasState := do
  let _ ← contextGet k
  pure k

end Kanvas

/-! ### C4: a null context makes the constructor itself throw -/

/-- **C4, counterexample.** The claim asserts that with a null stored
context, constructing the facade succeeds and only a later draw call
raises.  The code disagrees: the constructor assigns
`this.fillStyle = "#fff"`, whose setter reads the throwing `context`
getter, so construction itself raises the descriptive error. -/
theorem kanvas_construct_with_null_context_throws :
    Kanvas.construct "canvas" none 600 600 =
      Except.error "CanvasRenderingContext2D is null" := by
  rfl

/-- **C4, amended.** Whenever the stored context is null, every access
of the `context` getter raises the descriptive error
`"CanvasRenderingContext2D is null"`; the constructor performs such an
access (through the `fillStyle` setter it runs), so with a null
context construction itself raises that error — rather than
succeeding with the failure deferred to the first draw call.  With a
context present, construction succeeds and a draw call does not
raise. -/
theorem kanvas_context_error_at_first_access :
    (∀ (id fs ss : String) (lw : ℚ) (ld : List ℚ) (ldo : ℚ)
       (ta tb f : String) (ga w h ar cx cy : ℚ),
      Kanvas.contextGet ⟨id, none, fs, ss, lw, ld, ldo, ta, tb, f, ga, w, h, ar, cx, cy⟩ =
        Except.error "CanvasRenderingContext2D is null") ∧
    (∀ (id : String) (w h : ℚ),
      Kanvas.construct id none w h =
        Except.error "CanvasRenderingContext2D is null") ∧
    (∀ (id : String) (c : Ctx2d) (w h : ℚ),
      ∃ k : KanvasState, Kanvas.construct id (some c) w h = Except.ok k ∧
        Kanvas.beginPath k = Except.ok k) :=
  ⟨fun _ _ _ _ _ _ _ _ _ _ _ _ _ _ _ => rfl,
   fun _ _ _ => rfl,
   fun _ _ _ _ => ⟨_, rfl, rfl⟩⟩

end
